import Mathlib

/-!
Shallow embedding of the naming-convention derivation engine of the
buildsheet repository (src/utils.py, src/excel_processor.py, src/sap_form.py),
together with theorems settling the specification claims about it.

Python strings are modelled as Lean `String`; the Python string primitives
the code uses (`in`, `split`, `strip`, `lower`, `upper`) are re-implemented
over character lists so that they compute by kernel reduction. Python
dictionaries, which preserve insertion order and whose iteration order the
code relies on for first-match semantics, are modelled as insertion-ordered
association lists. All separators the code splits on are single characters
("+", "-", " "), so split takes a `Char`.
-/

namespace Buildsheet

/-- Substring test on character lists: the first list occurs contiguously in
the second. -/
def subChars (needle : List Char) : List Char → Bool
  | [] => needle.isEmpty
  | c :: rest => needle.isPrefixOf (c :: rest) || subChars needle rest

/-- Python's `needle in hay` for strings. -/
def pyIn (needle hay : String) : Bool :=
  subChars needle.toList hay.toList

/-- Python's `s.split(sep)` for a single-character separator, on character
lists: `"a+b" → ["a","b"]`, `"" → [""]`, `"+" → ["",""]`. -/
def splitChars (sep : Char) : List Char → List (List Char)
  | [] => [[]]
  | c :: rest =>
    if c == sep then [] :: splitChars sep rest
    else
      match splitChars sep rest with
      | [] => [[c]]
      | h :: t => (c :: h) :: t

/-- Python's `s.split(sep)` for a single-character separator. -/
def pySplit (sep : Char) (s : String) : List String :=
  (splitChars sep s.toList).map List.asString

/-- Python's `s.strip()` (for ASCII whitespace, all that occurs here). -/
def pyStrip (s : String) : String :=
  (((s.toList.dropWhile Char.isWhitespace).reverse.dropWhile Char.isWhitespace).reverse).asString

/-- Python's `s.lower()` (for ASCII letters, all that occur here). -/
def pyLower (s : String) : String :=
  (s.toList.map Char.toLower).asString

/-- Python's `s.upper()` (for ASCII letters, all that occur here). -/
def pyUpper (s : String) : String :=
  (s.toList.map Char.toUpper).asString

/-- Python's 03d format for a natural number: decimal digits padded with
leading zeros to width 3. -/
def pad3 (n : Nat) : String :=
  if n < 10 then "00" ++ toString n
  else if n < 100 then "0" ++ toString n
  else toString n

/-- The fixed SAP-region → letter table (utils.py get_sap_region_letter,
duplicated inline in both generate_service_model_names variants and in
excel_processor.py get_sap_region_letter); unknown regions map to "x". -/
def get_sap_region_letter (sap_region : String) : String :=
  if sap_region = "Sirius" then "e"
  else if sap_region = "U2K2" then "a"
  else if sap_region = "Cordillera" then "t"
  else if sap_region = "Global" then "o"
  else if sap_region = "POC/Model Env" then "x"
  else "x"

/-- The hardcoded fallback identifier mapping of
utils.generate_service_model_names (utils.py lines 63-73), used when the DNS
spreadsheet cannot be read; an insertion-ordered association list. -/
def fallback_identifier_mapping : List (String × String) :=
  [("NFS", "000a"), ("HANA DB", "001a"), ("SQL DB", "001a"), ("ASCS", "002a"),
   ("Central", "002a"), ("PAS", "051a"), ("SCS", "003a"),
   ("AAS-Amsterdam", "102a"), ("AAS-Dublin", "202a")]

/-- The AAS city condition of utils.py lines 91-93 (also 109-112, 135-137 and
149-152): the city occurs in the identifier, or the identifier is the
Amsterdam/Dublin AAS identifier and the city names that city. -/
def aasCityMatch (city identifier : String) : Bool :=
  pyIn city identifier ||
  (pyIn "Amsterdam" identifier && (pyIn "Amsterdam" city || city == "Amsterdam")) ||
  (pyIn "Dublin" identifier && (pyIn "Dublin" city || city == "Dublin"))

/-- utils.py lines 90-95: replace the code of the first AAS identifier
matching the city, leaving the rest of the mapping unchanged. -/
def updateAASCode : List (String × String) → String → String → List (String × String)
  | [], _, _ => []
  | (k, v) :: rest, city, code =>
    if pyIn "AAS" k && aasCityMatch city k then (k, code) :: rest
    else (k, v) :: updateAASCode rest city code

/-- utils.py lines 75-95: when the role mentions AAS and an AAS counter is
given, renumber the matching AAS identifier from a city-specific base
(102 for Amsterdam, 202 for Dublin, default 102). -/
def aasAdjustedMapping (server_role city : String) (aas_counter : Option Nat)
    (mapping : List (String × String)) : List (String × String) :=
  match aas_counter with
  | none => mapping
  | some counter =>
    if pyIn "AAS" server_role then
      let base_number : Nat :=
        if city == "Amsterdam" || pyIn "Amsterdam" city then 102
        else if city == "Dublin" || pyIn "Dublin" city then 202
        else 102
      updateAASCode mapping city (pad3 (base_number + counter - 1) ++ "a")
    else mapping

/-- The sub-role matching condition of utils.py lines 106-117 (also the
partial-match loop of lines 146-157): AAS roles match AAS identifiers for the
right city; other roles match any identifier contained in the role. -/
def combinedMatchPred (role city identifier : String) : Bool :=
  if pyIn "AAS" role then pyIn "AAS" identifier && aasCityMatch city identifier
  else pyIn identifier role

/-- The exact-match condition of utils.py lines 131-142. -/
def exactMatchPred (server_role city identifier : String) : Bool :=
  if pyIn "AAS" server_role then identifier == server_role && aasCityMatch city identifier
  else identifier == server_role

/-- utils.py lines 104-123: resolve one (already stripped) sub-role of a
combined role to a model name, when an identifier with a nonempty code
matches. -/
def resolveSubRole (mapping : List (String × String))
    (region_letter sid_lower region_code city role : String) : Option String :=
  match mapping.find? (fun p => combinedMatchPred role city p.1) with
  | none => none
  | some (_, code) =>
    if code = "" then none
    else some (region_letter ++ sid_lower ++ code ++ "." ++ region_code ++ ".unilever.com")

/-- utils.py lines 129-157: single-role matching, exact match first, then
substring containment. -/
def singleMatch (mapping : List (String × String)) (server_role city : String) :
    Option (String × String) :=
  match mapping.find? (fun p => exactMatchPred server_role city p.1) with
  | some p => some p
  | none => mapping.find? (fun p => combinedMatchPred server_role city p.1)

/-- utils.generate_service_model_names (utils.py lines 6-165), on the
hardcoded fallback identifier mapping (the path taken when the DNS
spreadsheet is unreadable). -/
def generate_service_model_names (server_role sid sap_region city region_code : String)
    (aas_counter : Option Nat) : String :=
  let region_letter := get_sap_region_letter sap_region
  let mapping := aasAdjustedMapping server_role city aas_counter fallback_identifier_mapping
  if pyIn "+" server_role then
    let model_names := (pySplit '+' server_role).filterMap
      (fun role => resolveSubRole mapping region_letter (pyLower sid) region_code city (pyStrip role))
    String.intercalate "; " model_names
  else
    match singleMatch mapping server_role city with
    | some (_, code) =>
      if code = "" then ""
      else region_letter ++ pyLower sid ++ code ++ "." ++ region_code ++ ".unilever.com"
    | none => ""

/-- The hardcoded fallback identifier mapping of the older
excel_processor.generate_service_model_names (excel_processor.py lines
62-70). -/
def fallback_identifier_mapping_ep : List (String × String) :=
  [("NFS", "051"), ("HANA DB", "001"), ("SQL DB", "001"), ("ASCS", "002"),
   ("Central", "002"), ("PAS", "000"), ("SCS", "003")]

/-- excel_processor.py lines 77-90: resolve one stripped sub-role by
substring containment (this variant has no AAS or exact-match handling). -/
def resolveSubRole_ep (mapping : List (String × String))
    (region_letter sid_lower region_code role : String) : Option String :=
  match mapping.find? (fun p => pyIn p.1 role) with
  | none => none
  | some (_, code) =>
    if code = "" then none
    else some (region_letter ++ sid_lower ++ code ++ "." ++ region_code ++ ".unilever.com")

/-- excel_processor.generate_service_model_names (excel_processor.py lines
7-108), on its hardcoded fallback identifier mapping. -/
def generate_service_model_names_ep (server_role sid sap_region region_code : String) : String :=
  let region_letter := get_sap_region_letter sap_region
  if pyIn "+" server_role then
    let model_names := (pySplit '+' server_role).filterMap
      (fun role =>
        resolveSubRole_ep fallback_identifier_mapping_ep region_letter (pyLower sid)
          region_code (pyStrip role))
    String.intercalate "; " model_names
  else
    match fallback_identifier_mapping_ep.find? (fun p => pyIn p.1 server_role) with
    | some (_, code) =>
      if code = "" then ""
      else region_letter ++ pyLower sid ++ code ++ "." ++ region_code ++ ".unilever.com"
    | none => ""

/-- One row of an instance-number sub-table: the "Non-Production" and
"Production & DR" columns (both always populated by the loaders at
utils.py lines 205-228 and by the fallback table). -/
structure InstEntry where
  nonprod : String
  prod : String
deriving DecidableEq

/-- utils.py line 182: the environment column, "Production & DR" when the
environment string contains "Production", else "Non-Production". -/
def envValue (environment_type : String) (e : InstEntry) : String :=
  if pyIn "Production" environment_type then e.prod else e.nonprod

/-- utils.py line 185: the configuration is clustered iff the role contains
"-HA" and the environment is production. -/
def isClustered (server_role environment_type : String) : Bool :=
  pyIn "-HA" server_role && pyIn "Production" environment_type

/-- utils.py lines 286 and 313: "Clustered" exactly when clustered, else
"Standalone". -/
def configTypeOf (server_role environment_type : String) : String :=
  if isClustered server_role environment_type then "Clustered" else "Standalone"

/-- Python `role.split("-")[0] if "-" in role else role`
(utils.py lines 274 and 296). -/
def baseRole (role : String) : String :=
  if pyIn "-" role then (pySplit '-' role).headD role else role

/-- utils.py lines 298-302 (single-role path only): AAS maps to the
"SAP AAS1..n" key, any other base role to "SAP " followed by the base role. -/
def singleSapRole (server_role : String) : String :=
  let base_role := baseRole server_role
  if pyUpper base_role == "AAS" then "SAP AAS1..n" else "SAP " ++ base_role

/-- utils.py lines 279-282 and 306-309: first mapping entry whose key equals
the SAP role name or contains the upper-cased base role. -/
def findMappedRole (mapping : List (String × List (String × InstEntry)))
    (sap_role base_role : String) : Option (String × List (String × InstEntry)) :=
  mapping.find? (fun p => p.1 == sap_role || pyIn (pyUpper base_role) (pyUpper p.1))

/-- Lookup of a configuration-type sub-table inside a role's entry
(Python `config_type in mapping[role]` plus the indexing). -/
def subLookup (sub : List (String × InstEntry)) (t : String) : Option InstEntry :=
  (sub.find? (fun p => p.1 == t)).map (fun p => p.2)

/-- utils.py lines 271-289: the contribution of one sub-role of a combined
role — no Standalone fallback and no placeholder when the configuration type
is absent. -/
def combinedInstance (mapping : List (String × List (String × InstEntry)))
    (config_type environment_type role : String) : Option String :=
  let role_clean := pyStrip role
  let base_role := baseRole role_clean
  let sap_role := "SAP " ++ base_role
  match findMappedRole mapping sap_role base_role with
  | none => none
  | some (_, sub) =>
    match subLookup sub config_type with
    | some e => some (envValue environment_type e)
    | none => none

/-- utils.get_instance_number (utils.py lines 167-323), parameterised by the
instance mapping the function builds (from the spreadsheet, or the hardcoded
fallback at lines 233-264). -/
def get_instance_number (mapping : List (String × List (String × InstEntry)))
    (server_role environment_type : String) : String :=
  let config_type := configTypeOf server_role environment_type
  if pyIn "+" server_role then
    let instance_numbers := (pySplit '+' server_role).filterMap
      (combinedInstance mapping config_type environment_type)
    String.intercalate "," instance_numbers
  else
    match findMappedRole mapping (singleSapRole server_role) (baseRole server_role) with
    | none => ""
    | some (_, sub) =>
      match subLookup sub config_type with
      | some e => envValue environment_type e
      | none =>
        match subLookup sub "Standalone" with
        | some e => envValue environment_type e
        | none => ""

/-- The hardcoded fallback instance-number mapping of utils.get_instance_number
(utils.py lines 233-264). -/
def default_instance_mapping : List (String × List (String × InstEntry)) :=
  [("SAP HANA DB",
    [("Standalone", ⟨"00", "00"⟩), ("Clustered", ⟨"00", "00"⟩)]),
   ("SAP ASCS",
    [("Standalone", ⟨"01", "21"⟩), ("Clustered", ⟨"01", "21"⟩)]),
   ("SAP SCS",
    [("Standalone", ⟨"02", "22"⟩), ("Clustered", ⟨"02", "22"⟩)]),
   ("SAP PAS",
    [("Standalone", ⟨"00", "20"⟩), ("Clustered", ⟨"00", "20"⟩)]),
   ("SAP AAS1..n",
    [("Standalone", ⟨"00", "20"⟩), ("Clustered", ⟨"00", "20"⟩)]),
   ("SAP Web Dispatcher",
    [("Standalone", ⟨"10", "20"⟩), ("Clustered", ⟨"10", "20"⟩)]),
   ("SAP ERS - ABAP", [("Clustered", ⟨"31", "31"⟩)]),
   ("SAP ERS - JAVA", [("Clustered", ⟨"32", "32"⟩)])]

/-- sap_form.py lines 281-286: the city derived from the Azure region string. -/
def az_region_city (azure_region : String) : String :=
  if pyIn "Amsterdam" azure_region || pyIn "NLWE" azure_region then "Amsterdam"
  else if pyIn "Dublin" azure_region || pyIn "IENO" azure_region then "Dublin"
  else "Amsterdam"

/-- sap_form.get_az_zones (sap_form.py lines 268-294); the AZ mapping is an
association list from (subscription, region) keys to
(primary_zone, ha_zone) pairs. -/
def get_az_zones (azure_subscription azure_region : String)
    (az_mapping : List ((String × String) × (String × String))) : String × String :=
  let key := (azure_subscription, az_region_city azure_region)
  match az_mapping.find? (fun p => p.1 == key) with
  | some (_, zones) => zones
  | none => ("1", "2")

/-- utils.py line 386 (add_load_balancer_sheet): subscription-number
extraction guarded by a "-" containment check, defaulting to "01". -/
def subscription_number_utils (subscription : String) : String :=
  if pyIn "-" subscription then
    ((pySplit ' ' ((pySplit '-' subscription).getD 1 ""))).headD ""
  else "01"

/-- excel_processor.py line 335 (process_sap_data_to_excel): the same
extraction with no guard. Python evaluates `subscription.split("-")[1]`
unconditionally; when the string contains no "-" the split has a single
element, the index is out of range and the statement raises IndexError,
modelled as `none`. -/
def subscription_number_excel (subscription : String) : Option String :=
  match (pySplit '-' subscription).get? 1 with
  | none => none
  | some t => some ((pySplit ' ' t).headD "")

/-- A string of the FQDN template shape of utils.py line 122/162 (and
excel_processor.py line 89/105): region letter, lower-cased SID, a nonempty
DNS code, then the region-code domain suffix — fully resolved, with no
placeholder left. -/
def isTemplateName (region_letter sid_lower region_code s : String) : Prop :=
  ∃ code, code ≠ "" ∧
    s = region_letter ++ sid_lower ++ code ++ "." ++ region_code ++ ".unilever.com"

theorem append_a_ne_empty (s : String) : s ++ "a" ≠ "" := by
  intro h
  have h2 := congrArg String.data h
  simp at h2

theorem resolveSubRole_isTemplate {mapping : List (String × String)}
    {rl sl rc city role s : String}
    (h : resolveSubRole mapping rl sl rc city role = some s) :
    isTemplateName rl sl rc s := by
  unfold resolveSubRole at h
  cases hf : mapping.find? (fun p => combinedMatchPred role city p.1) with
  | none => rw [hf] at h; exact absurd h (by simp)
  | some p =>
    rw [hf] at h
    obtain ⟨k, code⟩ := p
    by_cases hc : code = ""
    · simp [hc] at h
    · simp only [hc, if_false, ite_false, Option.some.injEq] at h
      exact ⟨code, hc, h.symm⟩

theorem resolveSubRole_ep_isTemplate {mapping : List (String × String)}
    {rl sl rc role s : String}
    (h : resolveSubRole_ep mapping rl sl rc role = some s) :
    isTemplateName rl sl rc s := by
  unfold resolveSubRole_ep at h
  cases hf : mapping.find? (fun p => pyIn p.1 role) with
  | none => rw [hf] at h; exact absurd h (by simp)
  | some p =>
    rw [hf] at h
    obtain ⟨k, code⟩ := p
    by_cases hc : code = ""
    · simp [hc] at h
    · simp only [hc, if_false, ite_false, Option.some.injEq] at h
      exact ⟨code, hc, h.symm⟩

theorem filterMap_names_wf (f : String → Option String) (roles : List String)
    (rl sl rc : String)
    (hf : ∀ r s, f r = some s → isTemplateName rl sl rc s) :
    String.intercalate "; " (roles.filterMap f) = "" ∨
    ∃ names : List String, names ≠ [] ∧ (∀ n ∈ names, isTemplateName rl sl rc n) ∧
      String.intercalate "; " (roles.filterMap f) = String.intercalate "; " names := by
  cases hL : roles.filterMap f with
  | nil => left; rfl
  | cons a as =>
    right
    refine ⟨a :: as, by simp, ?_, rfl⟩
    intro n hn
    rw [← hL] at hn
    obtain ⟨r, hr, hrs⟩ := List.mem_filterMap.mp hn
    exact hf r n hrs

/-- Claim C1: the claim asserts that subscription-number extraction never
raises at either call site, defaulting to "01" when the subscription string
has no "-". The guarded extraction of utils.add_load_balancer_sheet
(utils.py line 386) does behave that way, but the extraction of
excel_processor.process_sap_data_to_excel (excel_processor.py line 335) has
no guard: on a subscription string without "-" the index 1 does not exist
and the Python statement raises IndexError (modelled as none). This theorem
evaluates both embeddings at a failing input and at a well-formed input. -/
theorem subscription_extraction_at_failing_input :
    subscription_number_excel "Subscription 01" = none ∧
    subscription_number_utils "Subscription 01" = "01" ∧
    subscription_number_excel "UL-02 Prod" = some "02" ∧
    subscription_number_utils "UL-02 Prod" = "02" :=
  ⟨rfl, rfl, rfl, rfl⟩

/-- Claim C2: with the fallback identifier mappings active (DNS spreadsheet
unreadable), both generate_service_model_names variants always return a
string that is either empty or a "; "-join of fully resolved template names
(region letter, lower-cased SID, a nonempty DNS code, domain suffix), with
no unresolved placeholder, for arbitrary — possibly empty — inputs. -/
theorem generated_names_wellformed (server_role sid sap_region city region_code : String)
    (aas_counter : Option Nat) :
    (generate_service_model_names server_role sid sap_region city region_code aas_counter = "" ∨
      ∃ names : List String, names ≠ [] ∧
        (∀ n ∈ names,
          isTemplateName (get_sap_region_letter sap_region) (pyLower sid) region_code n) ∧
        generate_service_model_names server_role sid sap_region city region_code aas_counter =
          String.intercalate "; " names) ∧
    (generate_service_model_names_ep server_role sid sap_region region_code = "" ∨
      ∃ names : List String, names ≠ [] ∧
        (∀ n ∈ names,
          isTemplateName (get_sap_region_letter sap_region) (pyLower sid) region_code n) ∧
        generate_service_model_names_ep server_role sid sap_region region_code =
          String.intercalate "; " names) := by
  constructor
  · by_cases hplus : pyIn "+" server_role = true
    · have heq : generate_service_model_names server_role sid sap_region city region_code
          aas_counter =
          String.intercalate "; " ((pySplit '+' server_role).filterMap
            (fun role => resolveSubRole
              (aasAdjustedMapping server_role city aas_counter fallback_identifier_mapping)
              (get_sap_region_letter sap_region) (pyLower sid) region_code city
              (pyStrip role))) := by
        simp [generate_service_model_names, hplus]
      rw [heq]
      exact filterMap_names_wf _ _ _ _ _ (fun r s h => resolveSubRole_isTemplate h)
    · rcases hsm : singleMatch
          (aasAdjustedMapping server_role city aas_counter fallback_identifier_mapping)
          server_role city with _ | ⟨k, code⟩
      · left
        simp [generate_service_model_names, hplus, hsm]
      · by_cases hc : code = ""
        · left
          simp [generate_service_model_names, hplus, hsm, hc]
        · right
          refine ⟨[get_sap_region_letter sap_region ++ pyLower sid ++ code ++ "." ++
            region_code ++ ".unilever.com"], by simp, ?_, ?_⟩
          · intro n hn
            rw [List.mem_singleton] at hn
            exact ⟨code, hc, hn⟩
          · simp [generate_service_model_names, hplus, hsm, hc]
            rfl
  · by_cases hplus : pyIn "+" server_role = true
    · have heq : generate_service_model_names_ep server_role sid sap_region region_code =
          String.intercalate "; " ((pySplit '+' server_role).filterMap
            (fun role => resolveSubRole_ep fallback_identifier_mapping_ep
              (get_sap_region_letter sap_region) (pyLower sid) region_code
              (pyStrip role))) := by
        simp [generate_service_model_names_ep, hplus]
      rw [heq]
      exact filterMap_names_wf _ _ _ _ _ (fun r s h => resolveSubRole_ep_isTemplate h)
    · rcases hsm : fallback_identifier_mapping_ep.find?
          (fun p => pyIn p.1 server_role) with _ | ⟨k, code⟩
      · left
        simp [generate_service_model_names_ep, hplus, hsm]
      · by_cases hc : code = ""
        · left
          simp [generate_service_model_names_ep, hplus, hsm, hc]
        · right
          refine ⟨[get_sap_region_letter sap_region ++ pyLower sid ++ code ++ "." ++
            region_code ++ ".unilever.com"], by simp, ?_, ?_⟩
          · intro n hn
            rw [List.mem_singleton] at hn
            exact ⟨code, hc, hn⟩
          · simp [generate_service_model_names_ep, hplus, hsm, hc]
            rfl

/-- Claim C3: for a single (non-combined) role containing "-HA" in a
production environment, when the matched instance-number entry has no
"Clustered" sub-table but has a "Standalone" one, get_instance_number
returns the Standalone value of the production column; and the "Clustered"
sub-table is selected exactly when the role contains "-HA" and the
environment is production. -/
theorem standalone_fallback
    (mapping : List (String × List (String × InstEntry)))
    (server_role environment_type k : String)
    (sub : List (String × InstEntry)) (e : InstEntry)
    (hplus : pyIn "+" server_role = false)
    (hha : pyIn "-HA" server_role = true)
    (hprod : pyIn "Production" environment_type = true)
    (hfind : findMappedRole mapping (singleSapRole server_role) (baseRole server_role) =
      some (k, sub))
    (hnoclust : subLookup sub "Clustered" = none)
    (hstand : subLookup sub "Standalone" = some e) :
    get_instance_number mapping server_role environment_type = e.prod ∧
    ∀ role env, configTypeOf role env = "Clustered" ↔
      (pyIn "-HA" role = true ∧ pyIn "Production" env = true) := by
  constructor
  · have hct : configTypeOf server_role environment_type = "Clustered" := by
      simp [configTypeOf, isClustered, hha, hprod]
    simp [get_instance_number, hplus, hfind, hct, hnoclust, hstand, envValue, hprod]
  · intro role env
    simp only [configTypeOf, isClustered]
    by_cases h1 : pyIn "-HA" role = true <;> by_cases h2 : pyIn "Production" env = true <;>
      simp [h1, h2]

theorem standalone_fallback_witness :
    get_instance_number [("SAP FOO", [("Standalone", (⟨"07", "27"⟩ : InstEntry))])]
      "FOO-HA" "Production" = "27" :=
  (standalone_fallback [("SAP FOO", [("Standalone", ⟨"07", "27"⟩)])] "FOO-HA" "Production"
    "SAP FOO" [("Standalone", ⟨"07", "27"⟩)] ⟨"07", "27"⟩ rfl rfl rfl rfl rfl rfl).1

/-- Claim C4: the name generated for the combined role "ASCS+PAS" is the
individually resolved "ASCS" name, then "; ", then the individually resolved
"PAS" name, for both generate_service_model_names variants on their fallback
mappings, for any SID, SAP region, city, region code and AAS counter. -/
theorem ascs_pas_concat (sid sap_region city region_code : String) (ctr : Option Nat) :
    (generate_service_model_names "ASCS+PAS" sid sap_region city region_code ctr =
      generate_service_model_names "ASCS" sid sap_region city region_code ctr ++ "; " ++
      generate_service_model_names "PAS" sid sap_region city region_code ctr) ∧
    (generate_service_model_names_ep "ASCS+PAS" sid sap_region region_code =
      generate_service_model_names_ep "ASCS" sid sap_region region_code ++ "; " ++
      generate_service_model_names_ep "PAS" sid sap_region region_code) := by
  refine ⟨?_, rfl⟩
  cases ctr <;> rfl

theorem aas_code_amsterdam (sid sap_region region_code : String) (M : Nat) :
    generate_service_model_names "AAS" sid sap_region "Amsterdam" region_code (some M) =
      get_sap_region_letter sap_region ++ pyLower sid ++ (pad3 (102 + M - 1) ++ "a") ++ "." ++
        region_code ++ ".unilever.com" := by
  show (if pad3 (102 + M - 1) ++ "a" = "" then ""
        else get_sap_region_letter sap_region ++ pyLower sid ++ (pad3 (102 + M - 1) ++ "a") ++
          "." ++ region_code ++ ".unilever.com") = _
  rw [if_neg (append_a_ne_empty _)]

theorem aas_code_dublin (sid sap_region region_code : String) (M : Nat) :
    generate_service_model_names "AAS" sid sap_region "Dublin" region_code (some M) =
      get_sap_region_letter sap_region ++ pyLower sid ++ (pad3 (202 + M - 1) ++ "a") ++ "." ++
        region_code ++ ".unilever.com" := by
  show (if pad3 (202 + M - 1) ++ "a" = "" then ""
        else get_sap_region_letter sap_region ++ pyLower sid ++ (pad3 (202 + M - 1) ++ "a") ++
          "." ++ region_code ++ ".unilever.com") = _
  rw [if_neg (append_a_ne_empty _)]

/-- Claim C5: for a positive AAS counter N, the Nth AAS server's generated
name carries the DNS code with numeric part base + N - 1, where the base is
102 for Amsterdam and 202 for Dublin; and the name for counter N + 1 carries
numeric part exactly one greater, for both cities. -/
theorem aas_counter_numbering (sid sap_region region_code : String) (N : Nat)
    (h : 1 ≤ N) :
    (generate_service_model_names "AAS" sid sap_region "Amsterdam" region_code (some N) =
      get_sap_region_letter sap_region ++ pyLower sid ++ (pad3 (102 + N - 1) ++ "a") ++ "." ++
        region_code ++ ".unilever.com") ∧
    (generate_service_model_names "AAS" sid sap_region "Dublin" region_code (some N) =
      get_sap_region_letter sap_region ++ pyLower sid ++ (pad3 (202 + N - 1) ++ "a") ++ "." ++
        region_code ++ ".unilever.com") ∧
    (generate_service_model_names "AAS" sid sap_region "Amsterdam" region_code (some (N + 1)) =
      get_sap_region_letter sap_region ++ pyLower sid ++ (pad3 ((102 + N - 1) + 1) ++ "a") ++
        "." ++ region_code ++ ".unilever.com") ∧
    (generate_service_model_names "AAS" sid sap_region "Dublin" region_code (some (N + 1)) =
      get_sap_region_letter sap_region ++ pyLower sid ++ (pad3 ((202 + N - 1) + 1) ++ "a") ++
        "." ++ region_code ++ ".unilever.com") := by
  refine ⟨aas_code_amsterdam sid sap_region region_code N,
          aas_code_dublin sid sap_region region_code N, ?_, ?_⟩
  · have hc := aas_code_amsterdam sid sap_region region_code (N + 1)
    rw [show 102 + (N + 1) - 1 = (102 + N - 1) + 1 from by omega] at hc
    exact hc
  · have hc := aas_code_dublin sid sap_region region_code (N + 1)
    rw [show 202 + (N + 1) - 1 = (202 + N - 1) + 1 from by omega] at hc
    exact hc

theorem aas_counter_numbering_witness :
    generate_service_model_names "AAS" "P01" "Sirius" "Amsterdam" "eu" (some 3) =
      get_sap_region_letter "Sirius" ++ pyLower "P01" ++ (pad3 (102 + 3 - 1) ++ "a") ++ "." ++
        "eu" ++ ".unilever.com" :=
  (aas_counter_numbering "P01" "Sirius" "eu" 3 (by decide)).1

/-- Claim C6: with SID "P01", SAP region "Sirius", role "HANA DB", region
code "eu" and the fallback mapping (which maps "HANA DB" to "001a"), the
generated name is exactly "ep01001a.eu.unilever.com", for any city and any
AAS counter (neither is consulted for this role). -/
theorem hana_db_scenario (city : String) (ctr : Option Nat) :
    generate_service_model_names "HANA DB" "P01" "Sirius" city "eu" ctr =
      "ep01001a.eu.unilever.com" := by
  cases ctr <;> rfl

/-- Claim C7: a single (non-combined, non-AAS) role that matches no
identifier of the fallback mapping, neither exactly nor by substring
containment, yields the empty string from generate_service_model_names; and
a role matching no entry of the instance mapping yields the empty string
from get_instance_number — no error is raised in either case. -/
theorem unmatched_role_yields_empty
    (server_role sid sap_region city region_code : String) (aas_counter : Option Nat)
    (environment_type : String) (mapping : List (String × List (String × InstEntry)))
    (hplus : pyIn "+" server_role = false)
    (haas : pyIn "AAS" server_role = false)
    (hgen : ∀ p ∈ fallback_identifier_mapping,
      (p.1 == server_role) = false ∧ pyIn p.1 server_role = false)
    (hinst : ∀ p ∈ mapping, (p.1 == singleSapRole server_role) = false ∧
      pyIn (pyUpper (baseRole server_role)) (pyUpper p.1) = false) :
    generate_service_model_names server_role sid sap_region city region_code aas_counter = "" ∧
    get_instance_number mapping server_role environment_type = "" := by
  constructor
  · have hmap : aasAdjustedMapping server_role city aas_counter fallback_identifier_mapping =
        fallback_identifier_mapping := by
      cases aas_counter <;> simp [aasAdjustedMapping, haas]
    have hex : fallback_identifier_mapping.find?
        (fun p => exactMatchPred server_role city p.1) = none := by
      rw [List.find?_eq_none]
      intro p hp
      simp [exactMatchPred, haas, (hgen p hp).1]
    have hpar : fallback_identifier_mapping.find?
        (fun p => combinedMatchPred server_role city p.1) = none := by
      rw [List.find?_eq_none]
      intro p hp
      simp [combinedMatchPred, haas, (hgen p hp).2]
    simp [generate_service_model_names, hplus, hmap, singleMatch, hex, hpar]
  · have hfind : findMappedRole mapping (singleSapRole server_role) (baseRole server_role) =
        none := by
      rw [findMappedRole, List.find?_eq_none]
      intro p hp
      simp [(hinst p hp).1, (hinst p hp).2]
    simp [get_instance_number, hplus, hfind]

theorem unmatched_role_witness :
    generate_service_model_names "QQQ" "x01" "Sirius" "Paris" "eu" none = "" ∧
    get_instance_number [("SAP ASCS", [("Standalone", (⟨"01", "21"⟩ : InstEntry))])]
      "QQQ" "Production" = "" :=
  unmatched_role_yields_empty "QQQ" "x01" "Sirius" "Paris" "eu" none "Production"
    [("SAP ASCS", [("Standalone", ⟨"01", "21"⟩)])] rfl rfl (by decide) (by decide)

/-- Claim C8: get_az_zones returns the zone pair stored in the AZ mapping
for the (subscription, region-city) key when that key is present, and
exactly ("1", "2") when it is absent. -/
theorem az_zones_lookup (azure_subscription azure_region : String)
    (az_mapping : List ((String × String) × (String × String))) :
    (∀ k zones, az_mapping.find?
        (fun p => p.1 == (azure_subscription, az_region_city azure_region)) = some (k, zones) →
      get_az_zones azure_subscription azure_region az_mapping = zones) ∧
    (az_mapping.find?
        (fun p => p.1 == (azure_subscription, az_region_city azure_region)) = none →
      get_az_zones azure_subscription azure_region az_mapping = ("1", "2")) := by
  constructor
  · intro k zones h
    simp [get_az_zones, h]
  · intro h
    simp [get_az_zones, h]

theorem az_zones_witness :
    get_az_zones "SubA" "Amsterdam West" [(("SubA", "Amsterdam"), ("3", "2"))] = ("3", "2") ∧
    get_az_zones "SubA" "Frankfurt" [] = ("1", "2") :=
  ⟨(az_zones_lookup "SubA" "Amsterdam West" [(("SubA", "Amsterdam"), ("3", "2"))]).1
      ("SubA", "Amsterdam") ("3", "2") rfl,
   (az_zones_lookup "SubA" "Frankfurt" []).2 rfl⟩

/-- Claim C9: the SAP-region-to-letter lookup returns the five documented
letters for the five table entries and "x" for every other region string. -/
theorem region_letter_table :
    get_sap_region_letter "Sirius" = "e" ∧ get_sap_region_letter "U2K2" = "a" ∧
    get_sap_region_letter "Cordillera" = "t" ∧ get_sap_region_letter "Global" = "o" ∧
    get_sap_region_letter "POC/Model Env" = "x" ∧
    ∀ r, r ≠ "Sirius" → r ≠ "U2K2" → r ≠ "Cordillera" → r ≠ "Global" →
      r ≠ "POC/Model Env" → get_sap_region_letter r = "x" := by
  refine ⟨rfl, rfl, rfl, rfl, rfl, ?_⟩
  intro r h1 h2 h3 h4 h5
  simp [get_sap_region_letter, h1, h2, h3, h4, h5]

theorem region_letter_witness : get_sap_region_letter "Atlas" = "x" :=
  region_letter_table.2.2.2.2.2 "Atlas" (by decide) (by decide) (by decide) (by decide)
    (by decide)

/-- Claim C10: in the combined path of get_instance_number, a sub-role whose
matched entry lacks the requested configuration type contributes no element:
no Standalone fallback is applied and no empty placeholder is inserted, so
"ASCS-HA+ERS" in production yields only the ASCS clustered value when the
ERS entry has no "Clustered" sub-table — one element for two sub-roles. -/
theorem combined_role_skips_missing_config
    (sub1 sub2 : List (String × InstEntry)) (e : InstEntry)
    (h1 : subLookup sub1 "Clustered" = some e)
    (h2 : subLookup sub2 "Clustered" = none) :
    get_instance_number [("SAP ASCS", sub1), ("SAP ERS - ABAP", sub2)]
      "ASCS-HA+ERS" "Production" = e.prod := by
  have e1 : combinedInstance [("SAP ASCS", sub1), ("SAP ERS - ABAP", sub2)]
      "Clustered" "Production" "ASCS-HA" = some (envValue "Production" e) := by
    show (match subLookup sub1 "Clustered" with
          | some x => some (envValue "Production" x)
          | none => none) = some (envValue "Production" e)
    rw [h1]
  have e2 : combinedInstance [("SAP ASCS", sub1), ("SAP ERS - ABAP", sub2)]
      "Clustered" "Production" "ERS" = none := by
    show (match subLookup sub2 "Clustered" with
          | some x => some (envValue "Production" x)
          | none => none) = none
    rw [h2]
  show String.intercalate ","
      (List.filterMap
        (combinedInstance [("SAP ASCS", sub1), ("SAP ERS - ABAP", sub2)]
          "Clustered" "Production") ["ASCS-HA", "ERS"]) = e.prod
  rw [List.filterMap_cons, e1, List.filterMap_cons, e2, List.filterMap_nil]
  rfl

theorem combined_role_skips_witness :
    get_instance_number
      [("SAP ASCS", [("Clustered", (⟨"01", "21"⟩ : InstEntry))]),
       ("SAP ERS - ABAP", [("Standalone", (⟨"31", "31"⟩ : InstEntry))])]
      "ASCS-HA+ERS" "Production" = "21" :=
  combined_role_skips_missing_config [("Clustered", ⟨"01", "21"⟩)]
    [("Standalone", ⟨"31", "31"⟩)] ⟨"01", "21"⟩ rfl rfl

end Buildsheet
